import Mathlib

/-!
Verification of the esp8266-ota repository: a shallow embedding of the
fleet-monitor reconciliation loop (scripts/monitor_fleet.py) and of the two
OTA notification scripts (mqtt_notify.py and scripts/mqtt_notify.py),
together with theorems checking the repository specification against it.
-/

namespace OTA

/-! ## Parsed JSON values and the fleet state of monitor_fleet.py -/

/-- A JSON-like value as it appears in parsed MQTT payloads: the monitor
script only ever compares and stores these, so strings, integers, booleans
and null suffice. -/
inductive JVal where
  | str (s : String)
  | num (n : Int)
  | bool (b : Bool)
  | null
deriving DecidableEq

/-- Python substring helper: does the first list occur as a prefix of the
second? Mirrors the prefix step of the `needle in haystack` test. -/
def hasPrefixL : List Char → List Char → Bool
  | [], _ => true
  | _ :: _, [] => false
  | x :: xs, y :: ys => x == y && hasPrefixL xs ys

/-- Python substring helper: does the first list occur contiguously anywhere
inside the second? -/
def hasInfixL (needle : List Char) : List Char → Bool
  | [] => needle.isEmpty
  | b :: bs => hasPrefixL needle (b :: bs) || hasInfixL needle bs

/-- Embedding of the Python expression `needle in haystack` on strings, as
used by on_message to classify topics. -/
def isSubstring (needle haystack : String) : Bool :=
  hasInfixL needle.data haystack.data

/-- A parsed JSON object payload, as a partial map from field name to value
(mirrors a Python dict produced by json.loads). -/
def Payload : Type := String → Option JVal

/-- One device record of the fleet monitor: the per-device dict stored in
the global `devices` map. -/
def DeviceDict : Type := String → Option JVal

/-- The global `devices` map of monitor_fleet.py: device key to record.
Keys are JVal because `payload.get("device_id", "unknown")` can return any
JSON value, which Python then uses as the dict key. -/
def FleetState : Type := JVal → Option DeviceDict

/-- The empty device dict, created by `devices[device_id] = {}`. -/
def emptyDict : DeviceDict := fun _ => none

/-- The key under which an event is recorded:
`payload.get("device_id", "unknown")` from on_message line 114. -/
def eventKey (p : Payload) : JVal :=
  (p "device_id").getD (JVal.str "unknown")

/-- The record currently held for a key, or the empty dict if absent. -/
def getRecord (st : FleetState) (k : JVal) : DeviceDict :=
  (st k).getD emptyDict

/-- The `status` entry of the record held for a key (None when the device or
the field is absent), as read by the heartbeat guard. -/
def deviceStatus (st : FleetState) (k : JVal) : Option JVal :=
  getRecord st k "status"

/-- The protected in-progress guard of on_message lines 129-131:
`devices[device_id].get("status") not in ["downloading", "self_test_running",
"rebooting"]` — this is the negation of that condition, true exactly when the
current status is one of the three protected strings. -/
def protectedCheck (v : Option JVal) : Bool :=
  v == some (JVal.str "downloading") ||
  v == some (JVal.str "self_test_running") ||
  v == some (JVal.str "rebooting")

/-- Lines 113-121 of on_message: look up (or create empty) the record for the
event key, merge the payload into it field by field (`dict.update`: every
field present in the payload overwrites, absent fields are kept), then set
`last_seen` to the arrival time. -/
def mergeOnly (now : String) (p : Payload) (st : FleetState) : FleetState :=
  let key := eventKey p
  let base := getRecord st key
  let merged : DeviceDict := fun f =>
    if f = "last_seen" then some (JVal.str now) else ((p f).orElse fun _ => base f)
  fun k => if k = key then some merged else st k

/-- The full on_message handler of monitor_fleet.py (lines 111-141), with the
JSON decode step abstracted into the `parsed` argument: `none` is a payload
that failed to parse (json.JSONDecodeError, swallowed by `pass`), `some p`
a successfully parsed object. After the merge, a topic containing "status"
takes the pass branch; otherwise a topic containing "heartbeat" writes
`payload.get("state", "stable")` into `status` unless the (post-merge)
status is protected. -/
def on_message (now : String) (topic : String) (parsed : Option Payload)
    (st : FleetState) : FleetState :=
  match parsed with
  | none => st
  | some p =>
    let key := eventKey p
    let st1 := mergeOnly now p st
    if isSubstring "status" topic then st1
    else if isSubstring "heartbeat" topic then
      let d := getRecord st1 key
      if protectedCheck (d "status") then st1
      else
        let d2 : DeviceDict := fun f =>
          if f = "status" then some ((p "state").getD (JVal.str "stable")) else d f
        fun k => if k = key then some d2 else st1 k
    else st1

/-! ## SHA-256 and HMAC-SHA256, the primitives behind hashlib.sha256 and
hmac.new in scripts/mqtt_notify.py. Bytes are Nat below 256, 32-bit words
are Nat reduced mod 2^32. -/

/-- Addition modulo two to the 32. -/
def add32 (a b : Nat) : Nat := (a + b) % 4294967296

/-- Right rotation within 32 bits. -/
def rotr32 (n w : Nat) : Nat := ((w >>> n) ||| (w <<< (32 - n))) % 4294967296

/-- Bitwise complement within 32 bits. -/
def not32 (w : Nat) : Nat := w ^^^ 4294967295

/-- The SHA-256 Ch function. -/
def ch32 (x y z : Nat) : Nat := (x &&& y) ^^^ ((not32 x) &&& z)

/-- The SHA-256 Maj function. -/
def maj32 (x y z : Nat) : Nat := (x &&& y) ^^^ (x &&& z) ^^^ (y &&& z)

/-- The SHA-256 Σ0 function. -/
def bigSig0 (x : Nat) : Nat := (rotr32 2 x) ^^^ (rotr32 13 x) ^^^ (rotr32 22 x)

/-- The SHA-256 Σ1 function. -/
def bigSig1 (x : Nat) : Nat := (rotr32 6 x) ^^^ (rotr32 11 x) ^^^ (rotr32 25 x)

/-- The SHA-256 σ0 function. -/
def smallSig0 (x : Nat) : Nat := (rotr32 7 x) ^^^ (rotr32 18 x) ^^^ (x >>> 3)

/-- The SHA-256 σ1 function. -/
def smallSig1 (x : Nat) : Nat := (rotr32 17 x) ^^^ (rotr32 19 x) ^^^ (x >>> 10)

/-- The 64 SHA-256 round constants, written in decimal. -/
def kConst : List Nat :=
  [1116352408, 1899447441, 3049323471, 3921009573, 961987163, 1508970993,
   2453635748, 2870763221, 3624381080, 310598401, 607225278, 1426881987,
   1925078388, 2162078206, 2614888103, 3248222580, 3835390401, 4022224774,
   264347078, 604807628, 770255983, 1249150122, 1555081692, 1996064986,
   2554220882, 2821834349, 2952996808, 3210313671, 3336571891, 3584528711,
   113926993, 338241895, 666307205, 773529912, 1294757372, 1396182291,
   1695183700, 1986661051, 2177026350, 2456956037, 2730485921, 2820302411,
   3259730800, 3345764771, 3516065817, 3600352804, 4094571909, 275423344,
   430227734, 506948616, 659060556, 883997877, 958139571, 1322822218,
   1537002063, 1747873779, 1955562222, 2024104815, 2227730452, 2361852424,
   2428436474, 2756734187, 3204031479, 3329325298]

/-- SHA-256 working state: the eight 32-bit hash words. -/
structure Hash8 where
  a : Nat
  b : Nat
  c : Nat
  d : Nat
  e : Nat
  f : Nat
  g : Nat
  h : Nat

/-- SHA-256 initial hash value, written in decimal. -/
def initH : Hash8 :=
  ⟨1779033703, 3144134277, 1013904242, 2773480762,
   1359893119, 2600822924, 528734635, 1541459225⟩

/-- Big-endian 32-bit words from a byte list. -/
def bytesToWords : List Nat → List Nat
  | b0 :: b1 :: b2 :: b3 :: rest => (((b0 * 256 + b1) * 256 + b2) * 256 + b3) :: bytesToWords rest
  | _ => []

/-- One message-schedule extension step: append the word built from the
words 2, 7, 15 and 16 positions back. -/
def scheduleStep (w : Array Nat) : Array Nat :=
  let i := w.size
  w.push (add32 (add32 (smallSig1 (w.getD (i - 2) 0)) (w.getD (i - 7) 0))
                (add32 (smallSig0 (w.getD (i - 15) 0)) (w.getD (i - 16) 0)))

/-- Extend the 16 chunk words to the 64-entry message schedule. -/
def buildSchedule (w : Array Nat) : Array Nat :=
  (List.range 48).foldl (fun acc _ => scheduleStep acc) w

/-- One SHA-256 compression round. -/
def roundStep (k w : Nat) (s : Hash8) : Hash8 :=
  let t1 := add32 s.h (add32 (bigSig1 s.e) (add32 (ch32 s.e s.f s.g) (add32 k w)))
  let t2 := add32 (bigSig0 s.a) (maj32 s.a s.b s.c)
  ⟨add32 t1 t2, s.a, s.b, s.c, add32 s.d t1, s.e, s.f, s.g⟩

/-- Compress one 64-byte chunk into the running hash state. -/
def compressChunk (h0 : Hash8) (chunk : List Nat) : Hash8 :=
  let w := buildSchedule (Array.mk (bytesToWords chunk))
  let s := (List.range 64).foldl (fun s i => roundStep (kConst.getD i 0) (w.getD i 0) s) h0
  ⟨add32 h0.a s.a, add32 h0.b s.b, add32 h0.c s.c, add32 h0.d s.d,
   add32 h0.e s.e, add32 h0.f s.f, add32 h0.g s.g, add32 h0.h s.h⟩

/-- SHA-256 padding: append 0x80, zeros to reach 56 mod 64, then the bit
length as eight big-endian bytes. -/
def padMessage (msg : List Nat) : List Nat :=
  let len := msg.length
  let bitLen := len * 8
  let zeros := (119 - (len % 64)) % 64
  msg ++ [128] ++ List.replicate zeros 0 ++
    [(bitLen >>> 56) % 256, (bitLen >>> 48) % 256, (bitLen >>> 40) % 256, (bitLen >>> 32) % 256,
     (bitLen >>> 24) % 256, (bitLen >>> 16) % 256, (bitLen >>> 8) % 256, bitLen % 256]

/-- Split a byte list into 64-byte chunks. -/
def chunks64 : List Nat → List (List Nat)
  | [] => []
  | x :: xs => ((x :: xs).take 64) :: chunks64 ((x :: xs).drop 64)
termination_by l => l.length
decreasing_by simp; omega

/-- The four big-endian bytes of a 32-bit word. -/
def wordBytes (w : Nat) : List Nat :=
  [(w >>> 24) % 256, (w >>> 16) % 256, (w >>> 8) % 256, w % 256]

/-- The 32 digest bytes of a final hash state. -/
def digestBytes (s : Hash8) : List Nat :=
  wordBytes s.a ++ wordBytes s.b ++ wordBytes s.c ++ wordBytes s.d ++
  wordBytes s.e ++ wordBytes s.f ++ wordBytes s.g ++ wordBytes s.h

/-- SHA-256 of a byte list, as its 32 digest bytes. -/
def sha256 (msg : List Nat) : List Nat :=
  digestBytes ((chunks64 (padMessage msg)).foldl compressChunk initH)

/-- HMAC-SHA256 (block size 64), exactly the construction of Python's
hmac.new(key, msg, hashlib.sha256): hash down an over-long key, zero-pad to
the block size, then the nested ipad/opad hashes. -/
def hmacSha256 (key msg : List Nat) : List Nat :=
  let k1 := if 64 < key.length then sha256 key else key
  let k2 := k1 ++ List.replicate (64 - k1.length) 0
  let ipad := k2.map fun b => b ^^^ 54
  let opad := k2.map fun b => b ^^^ 92
  sha256 (opad ++ sha256 (ipad ++ msg))

/-- UTF-8 encoding of one character, as bytes. -/
def charUtf8 (c : Char) : List Nat :=
  let n := c.toNat
  if n < 128 then [n]
  else if n < 2048 then [192 + n / 64, 128 + n % 64]
  else if n < 65536 then [224 + n / 4096, 128 + (n / 64) % 64, 128 + n % 64]
  else [240 + n / 262144, 128 + (n / 4096) % 64, 128 + (n / 64) % 64, 128 + n % 64]

/-- UTF-8 encoding of a string, as bytes (the Python str.encode step). -/
def utf8Bytes (s : String) : List Nat :=
  s.data.flatMap charUtf8

/-- One lowercase hex digit. -/
def hexCharAux : Nat → Char
  | 0 => '0' | 1 => '1' | 2 => '2' | 3 => '3' | 4 => '4' | 5 => '5' | 6 => '6' | 7 => '7'
  | 8 => '8' | 9 => '9' | 10 => 'a' | 11 => 'b' | 12 => 'c' | 13 => 'd' | 14 => 'e'
  | _ => 'f'

/-- The hex digit of the low four bits of a number. -/
def hexChar (n : Nat) : Char := hexCharAux (n % 16)

/-- The sixteen lowercase hex digits. -/
def hexDigitsCL : List Char := "0123456789abcdef".data

/-- The two lowercase hex characters of one byte. -/
def byteHex (b : Nat) : List Char := [hexChar (b / 16), hexChar b]

/-- Lowercase hex string of a byte list (the Python hexdigest output). -/
def hexOfBytes (bs : List Nat) : String := ⟨bs.flatMap byteHex⟩

/-! ## The two notification scripts -/

/-- A value of the announcement payload dict: the scripts only store strings
and booleans there. -/
inductive PVal where
  | s (v : String)
  | b (v : Bool)
deriving DecidableEq

/-- Python truthiness of a string: non-empty. -/
def truthyStr (s : String) : Bool := !(s == "")

/-- Python truthiness of an optional string (argparse default None). -/
def truthyOpt : Option String → Bool
  | none => false
  | some s => truthyStr s

namespace Notify

/-- Lines 46-48 of scripts/mqtt_notify.py: the GitHub Releases download URL. -/
def build_firmware_url (repo version : String) : String :=
  "https://github.com/" ++ repo ++ "/releases/download/v" ++ version ++ "/firmware.bin"

/-- Lines 51-66 of scripts/mqtt_notify.py: HMAC-SHA256 over the pipe-joined
sign data, hex digest. -/
def compute_hmac_signature (version sha256 url signing_key : String) : String :=
  let sign_data := version ++ "|" ++ sha256 ++ "|" ++ url
  hexOfBytes (hmacSha256 (utf8Bytes signing_key) (utf8Bytes sign_data))

/-- Lines 88-95 of scripts/mqtt_notify.py: the payload dict before signing,
as an ordered key/value list. The timestamp is the clock reading `now`. -/
def basePayload (version sha256 repo : String) (force : Bool) (now : String) :
    List (String × PVal) :=
  [("version", PVal.s version),
   ("url", PVal.s (build_firmware_url repo version)),
   ("sha256", PVal.s sha256),
   ("force", PVal.b force),
   ("timestamp", PVal.s now),
   ("repo", PVal.s repo)]

/-- Lines 85-108 of scripts/mqtt_notify.py: build the payload, then either
attach the signature (non-empty OTA_SIGNING_KEY, Python truthiness) and log
the signing lines, or leave the payload unsigned and log the warning lines.
Returns the payload and the console lines of this section. -/
def buildPayload (version sha256 repo : String) (force : Bool) (now signing_key : String) :
    List (String × PVal) × List String :=
  let firmware_url := build_firmware_url repo version
  let payload := basePayload version sha256 repo force now
  if truthyStr signing_key then
    let signature := compute_hmac_signature version sha256 firmware_url signing_key
    (payload ++ [("signature", PVal.s signature)],
     ["Signature computed: " ++ signature.take 16 ++ "...",
      "  Sign data: " ++ version ++ "|" ++ sha256 ++ "|" ++ firmware_url])
  else
    (payload,
     ["WARNING: OTA_SIGNING_KEY not set - payload will NOT be signed",
      "  Devices with signing enabled will REJECT this update!"])

/-- Lines 110-119 of scripts/mqtt_notify.py: topic from the target selector;
a truthy --device wins, then --target fleet, then the group topic. -/
def resolveTopic (device : Option String) (target : String) : String :=
  if truthyOpt device then "ota/device/" ++ device.getD ""
  else if target == "fleet" then "ota/fleet/all"
  else "ota/group/" ++ target

end Notify

namespace NotifyV1

/-- Lines 41-43 of mqtt_notify.py (the unsigned variant at the repository
root): the GitHub Releases download URL. -/
def build_firmware_url (repo version : String) : String :=
  "https://github.com/" ++ repo ++ "/releases/download/v" ++ version ++ "/firmware.bin"

/-- Lines 65-72 of mqtt_notify.py: the payload dict of the unsigned
notifier, as an ordered key/value list. -/
def buildPayload (version sha256 repo : String) (force : Bool) (now : String) :
    List (String × PVal) :=
  [("version", PVal.s version),
   ("url", PVal.s (build_firmware_url repo version)),
   ("sha256", PVal.s sha256),
   ("force", PVal.b force),
   ("timestamp", PVal.s now),
   ("repo", PVal.s repo)]

/-- Lines 74-83 of mqtt_notify.py: topic from the target selector. -/
def resolveTopic (device : Option String) (target : String) : String :=
  if truthyOpt device then "ota/device/" ++ device.getD ""
  else if target == "fleet" then "ota/fleet/all"
  else "ota/group/" ++ target

end NotifyV1

/-- The signature formula exactly as the spec words it (section 6): the hex
digest of HMAC-SHA256 over the order-sensitive concatenation
version, pipe, sha256, pipe, url — stated independently of the source
function, to compare the two. -/
def specSignature (version checksum artifactURL key : String) : String :=
  hexOfBytes (hmacSha256 (utf8Bytes key) (utf8Bytes (version ++ "|" ++ checksum ++ "|" ++ artifactURL)))

/-! ## Concrete sample data used by the witnesses -/

/-- A device record mid-download, with telemetry already observed. -/
def recDownloading : DeviceDict := fun f =>
  if f = "status" then some (JVal.str "downloading")
  else if f = "ip" then some (JVal.str "10.0.0.5")
  else if f = "rssi" then some (JVal.num (-60))
  else if f = "version" then some (JVal.str "1.1.0")
  else none

/-- A one-device fleet: dev-1 is mid-download. -/
def stSample : FleetState := fun k =>
  if k = JVal.str "dev-1" then some recDownloading else none

/-- A heartbeat payload from dev-1 carrying state stable. -/
def hbPayload : Payload := fun f =>
  if f = "device_id" then some (JVal.str "dev-1")
  else if f = "state" then some (JVal.str "stable")
  else none

/-- A status payload from dev-1 carrying only device_id and status. -/
def statusPayload : Payload := fun f =>
  if f = "device_id" then some (JVal.str "dev-1")
  else if f = "status" then some (JVal.str "download_failed")
  else none

/-- A first-ever status payload from dev-9. -/
def bootstrapPayload : Payload := fun f =>
  if f = "device_id" then some (JVal.str "dev-9")
  else if f = "status" then some (JVal.str "idle")
  else if f = "version" then some (JVal.str "1.0.0")
  else none

/-! ## Helper lemmas about the reconciliation step -/

/-- Field content of the record the merge phase stores at the event key:
`last_seen` becomes the arrival time, every other field is the payload value
when present, else the previous value. -/
theorem getRecord_mergeOnly (now : String) (p : Payload) (st : FleetState) :
    getRecord (mergeOnly now p st) (eventKey p) = fun f =>
      if f = "last_seen" then some (JVal.str now)
      else ((p f).orElse fun _ => getRecord st (eventKey p) f) := by
  funext f
  simp [mergeOnly, getRecord]

/-- The merge phase touches no key other than the event key. -/
theorem mergeOnly_other (now : String) (p : Payload) (st : FleetState)
    (k : JVal) (hk : k ≠ eventKey p) :
    mergeOnly now p st k = st k := by
  simp [mergeOnly, hk]

/-- The merge phase stores a record (some dict) at the event key. -/
theorem mergeOnly_key_isSome (now : String) (p : Payload) (st : FleetState) :
    (mergeOnly now p st (eventKey p)).isSome = true := by
  simp [mergeOnly]

/-- A topic classified as status (the substring test succeeds) makes
on_message exactly the merge phase: no heartbeat state derivation runs. -/
theorem on_message_status (now topic : String) (p : Payload) (st : FleetState)
    (hS : isSubstring "status" topic = true) :
    on_message now topic (some p) st = mergeOnly now p st := by
  simp [on_message, hS]

/-- A heartbeat-classified topic whose post-merge status is protected also
reduces to the merge phase alone. -/
theorem on_message_heartbeat_protected (now topic : String) (p : Payload)
    (st : FleetState)
    (hS : isSubstring "status" topic = false)
    (hH : isSubstring "heartbeat" topic = true)
    (hprot : protectedCheck (getRecord (mergeOnly now p st) (eventKey p) "status") = true) :
    on_message now topic (some p) st = mergeOnly now p st := by
  simp [on_message, hS, hH, hprot]

/-- A heartbeat-classified topic whose post-merge status is not protected
writes the derived state into `status` on top of the merge phase. -/
theorem on_message_heartbeat_live (now topic : String) (p : Payload)
    (st : FleetState)
    (hS : isSubstring "status" topic = false)
    (hH : isSubstring "heartbeat" topic = true)
    (hprot : protectedCheck (getRecord (mergeOnly now p st) (eventKey p) "status") = false) :
    on_message now topic (some p) st = fun k =>
      if k = eventKey p then
        some (fun f => if f = "status" then some ((p "state").getD (JVal.str "stable"))
              else getRecord (mergeOnly now p st) (eventKey p) f)
      else mergeOnly now p st k := by
  simp [on_message, hS, hH, hprot]

/-- Every field other than `status` of the record at the event key comes
straight from the merge phase, whatever the topic class. -/
theorem on_message_field (now topic : String) (p : Payload) (st : FleetState)
    (f : String) (hf : f ≠ "status") :
    getRecord (on_message now topic (some p) st) (eventKey p) f
      = getRecord (mergeOnly now p st) (eventKey p) f := by
  simp only [on_message]
  split
  · rfl
  · split
    · split
      · rfl
      · simp [getRecord, hf]
    · rfl

/-- No key other than the event key is touched, whatever the topic class. -/
theorem on_message_other (now topic : String) (p : Payload) (st : FleetState)
    (k : JVal) (hk : k ≠ eventKey p) :
    on_message now topic (some p) st k = st k := by
  simp only [on_message]
  split
  · exact mergeOnly_other now p st k hk
  · split
    · split
      · exact mergeOnly_other now p st k hk
      · simp only [hk, if_false]
        exact mergeOnly_other now p st k hk
    · exact mergeOnly_other now p st k hk

/-- A record is present at the event key after any parsed event. -/
theorem on_message_key_isSome (now topic : String) (p : Payload) (st : FleetState) :
    (on_message now topic (some p) st (eventKey p)).isSome = true := by
  simp only [on_message]
  split
  · exact mergeOnly_key_isSome now p st
  · split
    · split
      · exact mergeOnly_key_isSome now p st
      · simp
    · exact mergeOnly_key_isSome now p st

/-! ## Helper lemmas about the digest format -/

/-- A final hash state always yields 32 digest bytes. -/
theorem digestBytes_length (s : Hash8) : (digestBytes s).length = 32 := rfl

/-- SHA-256 always yields 32 bytes. -/
theorem sha256_length (m : List Nat) : (sha256 m).length = 32 := digestBytes_length _

/-- HMAC-SHA256 always yields 32 bytes. -/
theorem hmacSha256_length (k m : List Nat) : (hmacSha256 k m).length = 32 :=
  sha256_length _

/-- Hex encoding doubles the byte count. -/
theorem hexOfBytes_length (bs : List Nat) : (hexOfBytes bs).length = 2 * bs.length := by
  show (bs.flatMap byteHex).length = 2 * bs.length
  induction bs with
  | nil => rfl
  | cons b t ih =>
    simp only [List.flatMap_cons, List.length_append, ih, byteHex, List.length_cons,
      List.length_nil]
    omega

/-- The auxiliary digit function only produces the sixteen lowercase hex
digits. -/
theorem hexCharAux_mem (m : Nat) : hexCharAux m ∈ hexDigitsCL := by
  unfold hexCharAux
  split <;> decide

/-- Every produced hex digit is one of the sixteen lowercase ones. -/
theorem hexChar_mem (n : Nat) : hexChar n ∈ hexDigitsCL := hexCharAux_mem _

/-- Every character of a hex-encoded byte list is a lowercase hex digit. -/
theorem mem_hexOfBytes (bs : List Nat) (c : Char) (hc : c ∈ (hexOfBytes bs).data) :
    c ∈ hexDigitsCL := by
  have hc2 : c ∈ bs.flatMap byteHex := hc
  rcases List.mem_flatMap.mp hc2 with ⟨b, _, hcb⟩
  simp only [byteHex, List.mem_cons, List.not_mem_nil, or_false] at hcb
  rcases hcb with rfl | rfl
  · exact hexChar_mem _
  · exact hexChar_mem _

/-! ## Helper lemmas about the announcement payload -/

/-- The unsigned payload dict has no signature key. -/
theorem lookup_signature_base (version sha256 repo : String) (force : Bool) (now : String) :
    (Notify.basePayload version sha256 repo force now).lookup "signature" = none := by
  simp [Notify.basePayload, List.lookup]

/-- With a non-empty key, the built payload carries exactly the signature
computed from version, sha256 and the derived firmware URL. -/
theorem lookup_signature_signed (version sha256 repo : String) (force : Bool)
    (now key : String) (hk : key ≠ "") :
    ((Notify.buildPayload version sha256 repo force now key).1).lookup "signature"
      = some (PVal.s (Notify.compute_hmac_signature version sha256
          (Notify.build_firmware_url repo version) key)) := by
  have ht : truthyStr key = true := by simp [truthyStr, hk]
  simp [Notify.buildPayload, Notify.basePayload, ht, List.lookup]

/-- With an empty key, the built payload is the base payload and the log is
the two warning lines. -/
theorem buildPayload_empty_key (version sha256 repo : String) (force : Bool)
    (now : String) :
    Notify.buildPayload version sha256 repo force now ""
      = (Notify.basePayload version sha256 repo force now,
         ["WARNING: OTA_SIGNING_KEY not set - payload will NOT be signed",
          "  Devices with signing enabled will REJECT this update!"]) := by
  simp [Notify.buildPayload, truthyStr]

/-! ## Claim theorems — reconciliation engine -/

/-- Claim C1: a heartbeat event (heartbeat-classified topic, payload without
a `status` field, as the heartbeat schema has `state` instead) never changes
the status of a device currently in the protected set downloading,
self_test_running, rebooting; on an unprotected device it writes the
heartbeat's state value (default "stable"); a status-classified event
carrying a status field always overwrites the status unconditionally. -/
theorem heartbeat_never_clobbers_protected_status
    (st : FleetState) (p q : Payload) (tH tS now : String)
    (hSH : isSubstring "status" tH = false)
    (hH : isSubstring "heartbeat" tH = true)
    (hp : p "status" = none)
    (hqS : isSubstring "status" tS = true) :
    (protectedCheck (deviceStatus st (eventKey p)) = true →
      deviceStatus (on_message now tH (some p) st) (eventKey p)
        = deviceStatus st (eventKey p))
    ∧ (protectedCheck (deviceStatus st (eventKey p)) = false →
      deviceStatus (on_message now tH (some p) st) (eventKey p)
        = some ((p "state").getD (JVal.str "stable")))
    ∧ (∀ v, q "status" = some v →
      deviceStatus (on_message now tS (some q) st) (eventKey q) = some v) := by
  have hmerge : getRecord (mergeOnly now p st) (eventKey p) "status"
      = deviceStatus st (eventKey p) := by
    rw [getRecord_mergeOnly]
    simp [hp, deviceStatus, Option.orElse]
  refine ⟨?_, ?_, ?_⟩
  · intro hprot
    show getRecord (on_message now tH (some p) st) (eventKey p) "status" = _
    rw [on_message_heartbeat_protected now tH p st hSH hH (by rw [hmerge]; exact hprot)]
    exact hmerge
  · intro hnot
    show getRecord (on_message now tH (some p) st) (eventKey p) "status" = _
    rw [on_message_heartbeat_live now tH p st hSH hH (by rw [hmerge]; exact hnot)]
    simp [getRecord]
  · intro v hv
    show getRecord (on_message now tS (some q) st) (eventKey q) "status" = _
    rw [on_message_status now tS q st hqS, getRecord_mergeOnly]
    simp [hv]

/-- Concrete check of C1: dev-1 is downloading; a stable heartbeat on the
heartbeat topic leaves the status at downloading, and a download_failed
status event overwrites it. -/
theorem heartbeat_never_clobbers_protected_status_witness :
    (protectedCheck (deviceStatus stSample (eventKey hbPayload)) = true)
    ∧ deviceStatus (on_message "T1" "ota/heartbeat/dev-1" (some hbPayload) stSample)
        (eventKey hbPayload) = deviceStatus stSample (eventKey hbPayload)
    ∧ deviceStatus (on_message "T1" "ota/status/dev-1" (some statusPayload) stSample)
        (eventKey statusPayload) = some (JVal.str "download_failed") :=
  ⟨by decide,
   (heartbeat_never_clobbers_protected_status stSample hbPayload statusPayload
      "ota/heartbeat/dev-1" "ota/status/dev-1" "T1"
      (by decide) (by decide) (by decide) (by decide)).1 (by decide),
   (heartbeat_never_clobbers_protected_status stSample hbPayload statusPayload
      "ota/heartbeat/dev-1" "ota/status/dev-1" "T1"
      (by decide) (by decide) (by decide) (by decide)).2.2
     (JVal.str "download_failed") (by decide)⟩

/-- Claim C5: merging an event is field-independent last-write-wins: every
non-status field present in the payload overwrites the record field and
every one absent keeps its previous value (the bookkeeping last_seen stamp
excepted — it is set to the arrival time on every event, as the spec's merge
paragraph states); for a status-classified event the same holds for the
status field itself; and no other device's record changes. -/
theorem merge_fieldwise_lww
    (st : FleetState) (p : Payload) (topic now : String) :
    (∀ f v, f ≠ "status" → f ≠ "last_seen" → p f = some v →
      getRecord (on_message now topic (some p) st) (eventKey p) f = some v)
    ∧ (∀ f, f ≠ "status" → f ≠ "last_seen" → p f = none →
      getRecord (on_message now topic (some p) st) (eventKey p) f
        = getRecord st (eventKey p) f)
    ∧ (isSubstring "status" topic = true →
      (∀ v, p "status" = some v →
        getRecord (on_message now topic (some p) st) (eventKey p) "status" = some v)
      ∧ (p "status" = none →
        getRecord (on_message now topic (some p) st) (eventKey p) "status"
          = getRecord st (eventKey p) "status"))
    ∧ getRecord (on_message now topic (some p) st) (eventKey p) "last_seen"
        = some (JVal.str now)
    ∧ (∀ k, k ≠ eventKey p → on_message now topic (some p) st k = st k) := by
  refine ⟨?_, ?_, ?_, ?_, fun k hk => on_message_other now topic p st k hk⟩
  · intro f v hf hl hpf
    rw [on_message_field now topic p st f hf, getRecord_mergeOnly]
    simp [hl, hpf]
  · intro f hf hl hpf
    rw [on_message_field now topic p st f hf, getRecord_mergeOnly]
    simp [hl, hpf, Option.orElse]
  · intro hS
    rw [on_message_status now topic p st hS]
    refine ⟨fun v hv => ?_, fun hv => ?_⟩
    · rw [getRecord_mergeOnly]; simp [hv]
    · rw [getRecord_mergeOnly]; simp [hv, Option.orElse]
  · rw [on_message_field now topic p st "last_seen" (by decide), getRecord_mergeOnly]
    simp

/-- Concrete check of C5: a status event carrying only device_id and status
leaves the previously recorded ip, rssi and version of dev-1 unchanged. -/
theorem merge_fieldwise_lww_witness :
    getRecord (on_message "T3" "ota/status/dev-1" (some statusPayload) stSample)
        (eventKey statusPayload) "ip"
      = getRecord stSample (eventKey statusPayload) "ip"
    ∧ getRecord (on_message "T3" "ota/status/dev-1" (some statusPayload) stSample)
        (eventKey statusPayload) "rssi"
      = getRecord stSample (eventKey statusPayload) "rssi"
    ∧ getRecord (on_message "T3" "ota/status/dev-1" (some statusPayload) stSample)
        (eventKey statusPayload) "version"
      = getRecord stSample (eventKey statusPayload) "version" :=
  ⟨(merge_fieldwise_lww stSample statusPayload "ota/status/dev-1" "T3").2.1 "ip"
     (by decide) (by decide) (by decide),
   (merge_fieldwise_lww stSample statusPayload "ota/status/dev-1" "T3").2.1 "rssi"
     (by decide) (by decide) (by decide),
   (merge_fieldwise_lww stSample statusPayload "ota/status/dev-1" "T3").2.1 "version"
     (by decide) (by decide) (by decide)⟩

/-- Claim C6: a message whose payload fails to parse leaves the whole fleet
state unchanged — every device record, including the one named by the
topic, is exactly as before — and the handler returns normally (it is a
total function in the embedding; the JSONDecodeError is swallowed), so the
stream continues. -/
theorem malformed_payload_is_noop (now topic : String) (st : FleetState) :
    on_message now topic none st = st ∧ ∀ k, on_message now topic none st k = st k :=
  ⟨rfl, fun _ => rfl⟩

/-- Claim C8: events are keyed by the payload's device_id, with the sentinel
key "unknown" when it is absent, and are never discarded; the first event
for an unknown key creates a record determined by that event alone: present
fields copied, absent fields absent (apart from the last_seen stamp), and
the status seeded from the event — its status field on a status-classified
topic, its state field (default "stable") on a heartbeat-classified one. -/
theorem first_event_bootstrap
    (st : FleetState) (p : Payload) (topic now : String)
    (hnew : st (eventKey p) = none) :
    (p "device_id" = none → eventKey p = JVal.str "unknown")
    ∧ (∀ v, p "device_id" = some v → eventKey p = v)
    ∧ (on_message now topic (some p) st (eventKey p)).isSome = true
    ∧ (∀ f v, f ≠ "status" → f ≠ "last_seen" → p f = some v →
        getRecord (on_message now topic (some p) st) (eventKey p) f = some v)
    ∧ (∀ f, f ≠ "status" → f ≠ "last_seen" → p f = none →
        getRecord (on_message now topic (some p) st) (eventKey p) f = none)
    ∧ (isSubstring "status" topic = true →
        getRecord (on_message now topic (some p) st) (eventKey p) "status" = p "status")
    ∧ (isSubstring "status" topic = false → isSubstring "heartbeat" topic = true →
        p "status" = none →
        getRecord (on_message now topic (some p) st) (eventKey p) "status"
          = some ((p "state").getD (JVal.str "stable")))
    ∧ getRecord (on_message now topic (some p) st) (eventKey p) "last_seen"
        = some (JVal.str now) := by
  have hbase : ∀ f, getRecord st (eventKey p) f = none := by
    intro f; simp [getRecord, hnew, emptyDict]
  refine ⟨?_, ?_, on_message_key_isSome now topic p st, ?_, ?_, ?_, ?_, ?_⟩
  · intro h; simp [eventKey, h]
  · intro v h; simp [eventKey, h]
  · intro f v hf hl hpf
    rw [on_message_field now topic p st f hf, getRecord_mergeOnly]
    simp [hl, hpf]
  · intro f hf hl hpf
    rw [on_message_field now topic p st f hf, getRecord_mergeOnly]
    simp [hl, hpf, hbase f, Option.orElse]
  · intro hS
    rw [on_message_status now topic p st hS, getRecord_mergeOnly]
    cases hps : p "status" <;> simp [hps, hbase, Option.orElse]
  · intro hS hH hps
    have hm : getRecord (mergeOnly now p st) (eventKey p) "status" = none := by
      rw [getRecord_mergeOnly]; simp [hps, hbase, Option.orElse]
    rw [on_message_heartbeat_live now topic p st hS hH (by rw [hm]; rfl)]
    simp [getRecord]
  · rw [on_message_field now topic p st "last_seen" (by decide), getRecord_mergeOnly]
    simp

/-- Concrete check of C8: the first event ever seen for dev-9 creates its
record from exactly that event: status idle, version copied, ip absent. -/
theorem first_event_bootstrap_witness :
    (stSample (eventKey bootstrapPayload) = none)
    ∧ getRecord (on_message "T4" "ota/status/dev-9" (some bootstrapPayload) stSample)
        (eventKey bootstrapPayload) "status" = bootstrapPayload "status"
    ∧ getRecord (on_message "T4" "ota/status/dev-9" (some bootstrapPayload) stSample)
        (eventKey bootstrapPayload) "version" = some (JVal.str "1.0.0")
    ∧ getRecord (on_message "T4" "ota/status/dev-9" (some bootstrapPayload) stSample)
        (eventKey bootstrapPayload) "ip" = none :=
  ⟨rfl,
   (first_event_bootstrap stSample bootstrapPayload "ota/status/dev-9" "T4"
      rfl).2.2.2.2.2.1 (by decide),
   (first_event_bootstrap stSample bootstrapPayload "ota/status/dev-9" "T4"
      rfl).2.2.2.1 "version" (JVal.str "1.0.0") (by decide) (by decide) (by decide),
   (first_event_bootstrap stSample bootstrapPayload "ota/status/dev-9" "T4"
      rfl).2.2.2.2.1 "ip" (by decide) (by decide) (by decide)⟩

/-- Claim C9: classification is substring containment on the topic with the
status test first: any topic containing "status" anywhere — including the
heartbeat-namespace topic ota/heartbeat/status-7 — runs exactly the merge
phase, so the heartbeat state derivation (the default to "stable" and the
protected-set check) is never applied to it. -/
theorem status_substring_classified_first
    (now topic : String) (p : Payload) (st : FleetState)
    (hS : isSubstring "status" topic = true) :
    on_message now topic (some p) st = mergeOnly now p st
    ∧ isSubstring "status" "ota/heartbeat/status-7" = true :=
  ⟨on_message_status now topic p st hS, by decide⟩

/-- Concrete check of C9: a heartbeat-looking topic whose device id contains
"status" is processed as a status event (pure merge). -/
theorem status_substring_classified_first_witness :
    (isSubstring "status" "ota/heartbeat/status-7" = true)
    ∧ (on_message "T2" "ota/heartbeat/status-7" (some hbPayload) stSample
        = mergeOnly "T2" hbPayload stSample
      ∧ isSubstring "status" "ota/heartbeat/status-7" = true) :=
  ⟨by decide,
   status_substring_classified_first "T2" "ota/heartbeat/status-7" hbPayload stSample
     (by decide)⟩

/-! ## Claim theorems — notification scripts -/

/-- Claim C2: for every non-empty signing key the computed signature is the
HMAC-SHA256 hex digest of the ordered concatenation version, pipe, sha256,
pipe, url under that key, exactly as the spec words it; it is 64 lowercase
hex characters; and through the payload builder the attached signature
depends only on version, sha256, the derived URL and the key — the same for
every force flag and timestamp, and on repo only through the URL. The
embedding is a pure function, so determinism on identical inputs holds by
construction. -/
theorem hmac_signature_matches_spec
    (version sha256v url key : String) (hk : key ≠ "") :
    Notify.compute_hmac_signature version sha256v url key
      = specSignature version sha256v url key
    ∧ (Notify.compute_hmac_signature version sha256v url key).length = 64
    ∧ (∀ c ∈ (Notify.compute_hmac_signature version sha256v url key).data, c ∈ hexDigitsCL)
    ∧ (∀ force now repo, Notify.build_firmware_url repo version = url →
        ((Notify.buildPayload version sha256v repo force now key).1).lookup "signature"
          = some (PVal.s (Notify.compute_hmac_signature version sha256v url key))) := by
  refine ⟨rfl, ?_, ?_, ?_⟩
  · show (hexOfBytes (hmacSha256 _ _)).length = 64
    rw [hexOfBytes_length, hmacSha256_length]
  · intro c hc
    exact mem_hexOfBytes _ c hc
  · intro force now repo hurl
    rw [← hurl]
    exact lookup_signature_signed version sha256v repo force now key hk

/-- Concrete check of C2 at the spec's end-to-end scenario inputs. -/
theorem hmac_signature_matches_spec_witness :
    (("secret" : String) ≠ "")
    ∧ Notify.compute_hmac_signature "2.0.0" "abc123"
        "https://github.com/org/fw/releases/download/v2.0.0/firmware.bin" "secret"
      = specSignature "2.0.0" "abc123"
        "https://github.com/org/fw/releases/download/v2.0.0/firmware.bin" "secret"
    ∧ (Notify.compute_hmac_signature "2.0.0" "abc123"
        "https://github.com/org/fw/releases/download/v2.0.0/firmware.bin" "secret").length = 64 :=
  ⟨by decide,
   (hmac_signature_matches_spec "2.0.0" "abc123"
      "https://github.com/org/fw/releases/download/v2.0.0/firmware.bin" "secret"
      (by decide)).1,
   (hmac_signature_matches_spec "2.0.0" "abc123"
      "https://github.com/org/fw/releases/download/v2.0.0/firmware.bin" "secret"
      (by decide)).2.1⟩

/-- Claim C3: target resolution yields exactly one topic string: a supplied
(non-empty) device id gives the device topic whatever target is also
supplied, the fleet target gives the fleet topic, and any other target
gives its group topic. -/
theorem target_resolution_precedence (d target : String) (hd : d ≠ "") :
    Notify.resolveTopic (some d) target = "ota/device/" ++ d
    ∧ Notify.resolveTopic none "fleet" = "ota/fleet/all"
    ∧ (∀ t, t ≠ "fleet" → Notify.resolveTopic none t = "ota/group/" ++ t) := by
  refine ⟨?_, rfl, ?_⟩
  · simp [Notify.resolveTopic, truthyOpt, truthyStr, hd]
  · intro t ht
    simp [Notify.resolveTopic, truthyOpt, ht]

/-- Concrete check of C3: Device dev-7 wins over a simultaneously supplied
canary group selection. -/
theorem target_resolution_precedence_witness :
    (("dev-7" : String) ≠ "")
    ∧ Notify.resolveTopic (some "dev-7") "canary" = "ota/device/dev-7" :=
  ⟨by decide, (target_resolution_precedence "dev-7" "canary" (by decide)).1⟩

/-- Claim C4: the artifact URL is the fixed template over (repo, version),
identical in both scripts — being a pure function of those two inputs, two
builds with the same repo and version produce the same URL — and the spec's
example instantiates to the expected string. -/
theorem firmware_url_deterministic (repo version : String) :
    Notify.build_firmware_url repo version
      = "https://github.com/" ++ repo ++ "/releases/download/v" ++ version ++ "/firmware.bin"
    ∧ NotifyV1.build_firmware_url repo version = Notify.build_firmware_url repo version
    ∧ Notify.build_firmware_url "org/fw" "2.0.0"
      = "https://github.com/org/fw/releases/download/v2.0.0/firmware.bin" :=
  ⟨rfl, rfl, by decide⟩

/-- Claim C7: the built announcement carries a signature field iff the
signing key is non-empty; with an empty key no HMAC is computed at all and
the two warning lines are emitted (before any transmission, which follows
this section in the script); any signature carried is the HMAC over
version, sha256 and the firmware URL under the configured key. -/
theorem signature_iff_key_configured
    (version sha256v repo : String) (force : Bool) (now key : String) :
    ((((Notify.buildPayload version sha256v repo force now key).1).lookup "signature").isSome
      ↔ key ≠ "")
    ∧ (key = "" → (Notify.buildPayload version sha256v repo force now key).2
        = ["WARNING: OTA_SIGNING_KEY not set - payload will NOT be signed",
           "  Devices with signing enabled will REJECT this update!"])
    ∧ (∀ sig, ((Notify.buildPayload version sha256v repo force now key).1).lookup "signature"
          = some sig →
        sig = PVal.s (Notify.compute_hmac_signature version sha256v
            (Notify.build_firmware_url repo version) key)) := by
  by_cases hk : key = ""
  · subst hk
    refine ⟨?_, fun _ => ?_, ?_⟩
    · rw [buildPayload_empty_key]
      simp [lookup_signature_base]
    · rw [buildPayload_empty_key]
    · intro sig h
      rw [buildPayload_empty_key] at h
      simp only [lookup_signature_base] at h
      exact absurd h (by simp)
  · refine ⟨?_, fun h => absurd h hk, ?_⟩
    · rw [lookup_signature_signed version sha256v repo force now key hk]
      simp [hk]
    · intro sig h
      rw [lookup_signature_signed version sha256v repo force now key hk] at h
      exact (Option.some_inj.mp h).symm

/-- Concrete check of C7 with no key configured: no signature key in the
payload and the explicit warning lines are produced. -/
theorem signature_iff_key_configured_witness :
    (("" : String) = "")
    ∧ (Notify.buildPayload "1.2.0" "aa11" "user/repo" false "T0" "").2
      = ["WARNING: OTA_SIGNING_KEY not set - payload will NOT be signed",
         "  Devices with signing enabled will REJECT this update!"] :=
  ⟨rfl, (signature_iff_key_configured "1.2.0" "aa11" "user/repo" false "T0" "").2.1 rfl⟩

/-- Claim C10: with no signing key the two notifier scripts are
behaviorally equivalent on the pure core: the same ordered payload object
with exactly the keys version, url, sha256, force, timestamp, repo and no
signature key, and the same topic for every selector, given the same clock
reading. -/
theorem notifiers_agree_without_key
    (version sha256v repo : String) (force : Bool) (now : String)
    (device : Option String) (target : String) :
    (Notify.buildPayload version sha256v repo force now "").1
      = NotifyV1.buildPayload version sha256v repo force now
    ∧ ((Notify.buildPayload version sha256v repo force now "").1).map Prod.fst
      = ["version", "url", "sha256", "force", "timestamp", "repo"]
    ∧ ((Notify.buildPayload version sha256v repo force now "").1).lookup "signature" = none
    ∧ Notify.resolveTopic device target = NotifyV1.resolveTopic device target := by
  refine ⟨?_, ?_, ?_, rfl⟩
  · rw [buildPayload_empty_key]
    rfl
  · rw [buildPayload_empty_key]
    rfl
  · rw [buildPayload_empty_key]
    exact lookup_signature_base version sha256v repo force now

end OTA
